import Mathlib

/-!
# User controller of the storefront backend

A shallow embedding of `backend/controllers/userController.js`.

Each request handler becomes a pure function from the store contents (and the
request data, the clock reading and the collaborators it calls) to a `Result`:
the store contents after the handler ran and the ordered list of effects the
handler produced on the response transport (`next(err)`, `res.cookie`,
`res.status(..).json(..)`, `sendToken(..)`), on the mail collaborator, or an
exception that escaped the handler body.
-/

namespace UserController

/-! ## Data model -/

/-- Avatar reference stored with an account: `{public_id, url}`. -/
structure Avatar where
  public_id : String
  url : String
deriving DecidableEq, Repr

/-- Account document of the `User` collection. `password` holds the stored
(hashed) secret; the two reset fields are `none` when unset (`undefined`). -/
structure User where
  id : String
  name : String
  email : String
  password : String
  avatar : Avatar
  role : String
  resetPasswordToken : Option String
  resetPasswordExpire : Option Nat
deriving DecidableEq, Repr

/-- Contents of the `User` collection, in natural (insertion) order. -/
abbrev Store := List User

/-- JSON body written by `res.status(code).json(body)`. -/
structure Body where
  success : Bool
  message : Option String
  user : Option User
  users : Option (List User)
deriving DecidableEq, Repr

/-- Argument object of `sendEmail({email, subject, message})`. -/
structure EmailOptions where
  email : String
  subject : String
  message : String
deriving DecidableEq, Repr

/-- Observable effects of a handler, in the order they happen. -/
inductive Effect where
  /-- Call `next(new ErrorHandler(message, statusCode))`. -/
  | next (message : String) (statusCode : Nat)
  /-- A `TypeError` raised by reading `property` of `null`; it escapes the handler body. -/
  | typeError (property : String)
  /-- An exception with this message raised by a collaborator; it escapes the handler body. -/
  | thrown (message : String)
  /-- Call `res.cookie(name, value, {expires, httpOnly})`; `value = none` is `null`. -/
  | cookie (name : String) (value : Option String) (expires : Nat) (httpOnly : Bool)
  /-- Call `res.status(statusCode).json(body)`. -/
  | json (statusCode : Nat) (body : Body)
  /-- Call `sendToken(user, statusCode, res)`: a session is issued for `user`. -/
  | sendToken (user : User) (statusCode : Nat)
  /-- Call `sendEmail(options)`. -/
  | sendEmail (options : EmailOptions)
deriving DecidableEq, Repr

/-- Outcome of running a handler: the store afterwards and the effects produced. -/
structure Result where
  store : Store
  effects : List Effect
deriving DecidableEq, Repr

/-- Result of `cloudinary.v2.uploader.upload`. -/
structure Cloud where
  public_id : String
  secure_url : String
deriving DecidableEq, Repr

/-- Collaborators and configuration the controller calls into. None of them is
defined in the controller file, so they are parameters of the embedding. -/
structure Env where
  /-- The digest `crypto.createHash("sha256").update(x).digest("hex")`. -/
  sha256 : String → String
  /-- Password Hasher `hash(plaintext)`. -/
  hash : String → String
  /-- The method `user.comparePassword(entered)`. -/
  comparePassword : User → String → Bool
  /-- Length of the reset window added to the clock reading. -/
  resetWindow : Nat
  /-- The mail collaborator: `Except.error m` is a rejection whose `error.message` is `m`. -/
  sendEmail : EmailOptions → Except String Unit
  /-- The asset upload `cloudinary.v2.uploader.upload(avatar, ..)`. -/
  upload : String → Except String Cloud
  /-- Role given to a newly created account. -/
  defaultRole : String

/-! ## Store access -/

/-- The query `User.findOne({ email })`: first account with this email. -/
def findOneByEmail (db : Store) (email : String) : Option User :=
  db.find? (fun u => decide (u.email = email))

/-- The query `User.findById(id)`. -/
def findById (db : Store) (id : String) : Option User :=
  db.find? (fun u => decide (u.id = id))

/-- The filter `{resetPasswordToken, resetPasswordExpire: {$gt: now}}` on one account. -/
def matchesReset (resetPasswordToken : String) (now : Nat) (u : User) : Bool :=
  decide (u.resetPasswordToken = some resetPasswordToken) &&
    (match u.resetPasswordExpire with
     | some e => decide (now < e)
     | none => false)

/-- The query `User.findOne({resetPasswordToken, resetPasswordExpire: {$gt: Date.now()}})`. -/
def findOneByReset (db : Store) (resetPasswordToken : String) (now : Nat) : Option User :=
  db.find? (matchesReset resetPasswordToken now)

/-- The write `user.save()`: the stored document with the id of `u` becomes `u`. -/
def save (db : Store) (u : User) : Store :=
  db.map (fun a => if a.id = u.id then u else a)

/-- Modelled from the spec: the pre-save step of the account model (the model
file is not part of the sources). "`passwordHash` is always derived via the
Password Hasher; raw passwords are never persisted": a password assigned by a
handler is replaced by its hash before the document is written. -/
def preSave (env : Env) (passwordModified : Bool) (u : User) : User :=
  if passwordModified then { u with password := env.hash u.password } else u

/-- Modelled from the spec: the method `user.getResetPasswordToken()` of the
account model (not part of the sources). "generate a high-entropy random token;
store only its one-way hash plus an expiry timestamp (absolute time, fixed
window)". `rawToken` is the random token drawn for this request; the method
returns it and sets both reset fields on the document. -/
def getResetPasswordToken (env : Env) (now : Nat) (rawToken : String) (u : User) :
    String × User :=
  (rawToken, { u with resetPasswordToken := some (env.sha256 rawToken),
                      resetPasswordExpire := some (now + env.resetWindow) })

/-- Modelled from the spec: `User.create(fields)` of the account model (not
part of the sources). "`email` ... must be unique across all accounts", "`id`:
opaque unique identifier, assigned at creation": creation is refused when the
email or the fresh id is taken, otherwise the account is appended with its
password hashed and no reset pending. -/
def create (env : Env) (newId : String) (db : Store) (name email password : String)
    (avatar : Avatar) : Except String (Store × User) :=
  if (findOneByEmail db email).isSome || (findById db newId).isSome then
    .error "duplicate key"
  else
    let user : User := preSave env true
      { id := newId, name := name, email := email, password := password, avatar := avatar,
        role := env.defaultRole, resetPasswordToken := none, resetPasswordExpire := none }
    .ok (db ++ [user], user)

/-! ## Request handlers -/

/-- Body of a login request; a field is `none` when it is absent. -/
structure LoginBody where
  email : Option String
  password : Option String
deriving DecidableEq, Repr

/-- The test `!x` on a text field that may be absent. -/
def falsy : Option String → Bool
  | none => true
  | some s => decide (s = "")

/-- Handler `exports.loginUser`. -/
def loginUser (env : Env) (db : Store) (body : LoginBody) : Result :=
  match body.email, body.password with
  | some email, some password =>
    if falsy (some email) || falsy (some password) then
      ⟨db, [.next "Please Enter Email & Password" 400]⟩
    else
      match findOneByEmail db email with
      | none => ⟨db, [.next "Invalid Email or Password" 401]⟩
      | some user =>
        if !env.comparePassword user password then
          ⟨db, [.next "Invalid Email or Password" 401]⟩
        else
          ⟨db, [.sendToken user 200]⟩
  | _, _ => ⟨db, [.next "Please Enter Email & Password" 400]⟩

/-- Handler `exports.logout`; `now` is the reading of `Date.now()`. -/
def logout (now : Nat) (db : Store) : Result :=
  ⟨db, [.cookie "token" none now true,
        .json 200 { success := true, message := some "Logged Out", user := none, users := none }]⟩

/-- Request data of `forgotPassword`: `req.body.email`, `req.protocol`, `req.get("host")`. -/
structure ForgotRequest where
  email : String
  protocol : String
  host : String
deriving DecidableEq, Repr

/-- The recovery URL built around the raw token. -/
def resetPasswordUrl (req : ForgotRequest) (resetToken : String) : String :=
  req.protocol ++ "://" ++ req.host ++ "/api/v1/password/reset/" ++ resetToken

/-- The text of the recovery mail. -/
def resetMessage (url : String) : String :=
  " Your password reset token is :- \n\n " ++ url ++
    " \n\nif you have not requested this email then, please ignore it "

/-- Handler `exports.forgotPassword`. `now` is the clock reading and `rawToken` the
random token drawn by `getResetPasswordToken`. When the lookup finds nothing
the handler calls `next(..)` and, having no `return`, goes on to read
`getResetPasswordToken` of `null`. -/
def forgotPassword (env : Env) (now : Nat) (rawToken : String) (db : Store)
    (req : ForgotRequest) : Result :=
  match findOneByEmail db req.email with
  | none => ⟨db, [.next "User not found" 404, .typeError "getResetPasswordToken"]⟩
  | some user =>
    let (resetToken, user) := getResetPasswordToken env now rawToken user
    let db1 := save db (preSave env false user)
    let message := resetMessage (resetPasswordUrl req resetToken)
    let options : EmailOptions :=
      { email := user.email, subject := "Ecommerce Password Recovery", message := message }
    match env.sendEmail options with
    | .ok _ =>
      ⟨db1, [.sendEmail options,
             .json 200 { success := true,
                         message := some ("Email sent to " ++ user.email ++ " successfully"),
                         user := none, users := none }]⟩
    | .error errorMessage =>
      let user := { user with resetPasswordToken := none, resetPasswordExpire := none }
      ⟨save db1 (preSave env false user), [.sendEmail options, .next errorMessage 500]⟩

/-- Body of a reset request: `req.body.password`, `req.body.confirmPassword`. -/
structure ResetBody where
  password : String
  confirmPassword : String
deriving DecidableEq, Repr

/-- Handler `exports.resetPassword`; `token` is `req.params.token`, `now` is `Date.now()`. -/
def resetPassword (env : Env) (now : Nat) (db : Store) (token : String) (body : ResetBody) :
    Result :=
  let resetPasswordToken := env.sha256 token
  match findOneByReset db resetPasswordToken now with
  | none => ⟨db, [.next "Reset Password Token is invalid or has been expired" 400]⟩
  | some user =>
    if body.password ≠ body.confirmPassword then
      ⟨db, [.next "Password does not matched" 400]⟩
    else
      let user := preSave env true
        { user with password := body.password,
                    resetPasswordToken := none, resetPasswordExpire := none }
      ⟨save db user, [.sendToken user 200]⟩

/-- Body of a change-password request. -/
structure UpdatePasswordBody where
  oldPassword : String
  newPassword : String
  confirmPassword : String
deriving DecidableEq, Repr

/-- Handler `exports.updatePassword`; `userId` is `req.user.id`. -/
def updatePassword (env : Env) (db : Store) (userId : String) (body : UpdatePasswordBody) :
    Result :=
  match findById db userId with
  | none => ⟨db, [.typeError "comparePassword"]⟩
  | some user =>
    if !env.comparePassword user body.oldPassword then
      ⟨db, [.next "Old password is incorrect" 400]⟩
    else if body.newPassword ≠ body.confirmPassword then
      ⟨db, [.next "Password does not match" 400]⟩
    else
      let user := preSave env true { user with password := body.newPassword }
      ⟨save db user, [.sendToken user 200]⟩

/-- Body of a registration request. -/
structure RegisterBody where
  name : String
  email : String
  password : String
  avatar : String
deriving DecidableEq, Repr

/-- Handler `exports.registerUser`; `newId` is the identifier the store assigns. -/
def registerUser (env : Env) (newId : String) (db : Store) (body : RegisterBody) : Result :=
  match env.upload body.avatar with
  | .error e => ⟨db, [.thrown e]⟩
  | .ok myCloud =>
    match create env newId db body.name body.email body.password
        { public_id := myCloud.public_id, url := myCloud.secure_url } with
    | .error e => ⟨db, [.thrown e]⟩
    | .ok (db1, user) => ⟨db1, [.sendToken user 201]⟩

/-- Handler `exports.getSingleUser`; `id` is `req.params.id`. -/
def getSingleUser (db : Store) (id : String) : Result :=
  match findById db id with
  | none => ⟨db, [.next ("User does not exist with Id: " ++ id) 401]⟩
  | some user =>
    ⟨db, [.json 200 { success := true, message := none, user := some user, users := none }]⟩

/-- Body of a role update: `req.body.name`, `req.body.email`, `req.body.role`. -/
structure RoleBody where
  name : String
  email : String
  role : String
deriving DecidableEq, Repr

/-- The write `User.findByIdAndUpdate(id, newUserData, ..)`: the fields of the
account with this id are replaced; nothing is written when no account has it. -/
def findByIdAndUpdate (db : Store) (id : String) (f : User → User) : Store :=
  match findById db id with
  | none => db
  | some user => save db (f user)

/-- Handler `exports.updateUserRole`; `id` is `req.params.id`. The result of the
update is not inspected. -/
def updateUserRole (db : Store) (id : String) (body : RoleBody) : Result :=
  let db1 := findByIdAndUpdate db id
    (fun u => { u with name := body.name, email := body.email, role := body.role })
  ⟨db1, [.json 200 { success := true, message := none, user := none, users := none }]⟩

/-- Handler `exports.deleteUser`; `id` is `req.params.id`. -/
def deleteUser (db : Store) (id : String) : Result :=
  match findById db id with
  | none => ⟨db, [.next ("User does not exist with Id: " ++ id) 401]⟩
  | some user =>
    ⟨db.filter (fun a => decide (a.id ≠ user.id)),
     [.json 200 { success := true, message := some "User Deleted Successfully",
                  user := none, users := none }]⟩

/-- The account `u` as `resetPassword` persists it after accepting `password`:
the hashed password is stored and both reset fields are cleared. -/
def consumed (env : Env) (u : User) (password : String) : User :=
  { u with password := env.hash password, resetPasswordToken := none,
           resetPasswordExpire := none }

/-- The account `u` as `updatePassword` persists it after accepting `password`. -/
def rekeyed (env : Env) (u : User) (password : String) : User :=
  { u with password := env.hash password }

/-- The account `u` with both reset fields unset, as the rollback writes it. -/
def cleared (u : User) : User :=
  { u with resetPasswordToken := none, resetPasswordExpire := none }

/-- The mail `forgotPassword` hands to the mail collaborator for account `u`. -/
def recoveryMail (req : ForgotRequest) (rawToken : String) (u : User) : EmailOptions :=
  { email := u.email, subject := "Ecommerce Password Recovery",
    message := resetMessage (resetPasswordUrl req rawToken) }

/-! ## Reading a result -/

/-- A session was issued: some effect is a `sendToken` call. -/
def Effect.isSession : Effect → Bool
  | .sendToken _ _ => true
  | _ => false

/-- A success response was written: a `json` body with `success: true` or a `sendToken` call. -/
def Effect.isSuccess : Effect → Bool
  | .sendToken _ _ => true
  | .json _ body => body.success
  | _ => false

/-- A mail was handed to the mail collaborator. -/
def Effect.isEmail : Effect → Bool
  | .sendEmail _ => true
  | _ => false

/-- An error was raised: `next(err)` or an escaping exception. -/
def Effect.isError : Effect → Bool
  | .next _ _ => true
  | .typeError _ => true
  | .thrown _ => true
  | _ => false

/-! ## Sample data used to evaluate the handlers -/

/-- A sample environment with transparent stand-ins for the collaborators. -/
def sampleEnv : Env where
  sha256 := fun t => "sha256:" ++ t
  hash := fun p => "hash:" ++ p
  comparePassword := fun u entered => decide (u.password = "hash:" ++ entered)
  resetWindow := 900000
  sendEmail := fun _ => .ok ()
  upload := fun _ => .ok { public_id := "pid", secure_url := "https://img/pid" }
  defaultRole := "user"

/-- The sample environment with a mail collaborator that always rejects. -/
def failingMailEnv : Env :=
  { sampleEnv with sendEmail := fun _ => .error "SMTP down" }

/-- A sample account with no reset pending. -/
def alice : User :=
  { id := "1", name := "Alice", email := "a@x.com", password := "hash:P1",
    avatar := { public_id := "pid", url := "https://img/pid" }, role := "user",
    resetPasswordToken := none, resetPasswordExpire := none }

/-- The sample account with a reset pending for raw token `T`, expiring at 1000. -/
def alicePending : User :=
  { alice with resetPasswordToken := some "sha256:T", resetPasswordExpire := some 1000 }

/-- A second sample account with no reset pending. -/
def bob : User :=
  { id := "2", name := "Bob", email := "b@x.com", password := "hash:Q1",
    avatar := { public_id := "pid2", url := "https://img/pid2" }, role := "user",
    resetPasswordToken := none, resetPasswordExpire := none }

/-- The second sample account holding the same pending token hash as `alicePending`. -/
def bobPending : User :=
  { bob with resetPasswordToken := some "sha256:T", resetPasswordExpire := some 1000 }

end UserController

namespace UserController

/-! ## Auxiliary facts about the store operations -/

theorem findOneByEmail_none_of_forall (db : Store) (email : String)
    (h : ∀ u ∈ db, u.email ≠ email) : findOneByEmail db email = none := by
  unfold findOneByEmail
  rw [List.find?_eq_none]
  intro u hu
  simpa using h u hu

theorem findOneByReset_mem {db : Store} {tok : String} {now : Nat} {u : User}
    (h : findOneByReset db tok now = some u) : u ∈ db :=
  List.mem_of_find?_eq_some h

theorem findOneByReset_matches {db : Store} {tok : String} {now : Nat} {u : User}
    (h : findOneByReset db tok now = some u) : matchesReset tok now u = true :=
  List.find?_some h

theorem matchesReset_token {tok : String} {now : Nat} {u : User}
    (h : matchesReset tok now u = true) : u.resetPasswordToken = some tok := by
  unfold matchesReset at h
  simp only [Bool.and_eq_true, decide_eq_true_eq] at h
  exact h.1

theorem matchesReset_expire {tok : String} {now : Nat} {u : User}
    (h : matchesReset tok now u = true) : ∃ e, u.resetPasswordExpire = some e ∧ now < e := by
  unfold matchesReset at h
  simp only [Bool.and_eq_true, decide_eq_true_eq] at h
  cases hx : u.resetPasswordExpire with
  | none => rw [hx] at h; simp at h
  | some e => rw [hx] at h; exact ⟨e, rfl, by simpa using h.2⟩

theorem findOneByReset_none_of_forall (db : Store) (tok : String) (now : Nat)
    (h : ∀ u ∈ db, matchesReset tok now u = false) : findOneByReset db tok now = none := by
  unfold findOneByReset
  rw [List.find?_eq_none]
  intro u hu
  simp [h u hu]

theorem findOneByReset_of_unique {db : Store} {tok : String} {now e : Nat} {a : User}
    (ha : a ∈ db) (htok : a.resetPasswordToken = some tok)
    (hexp : a.resetPasswordExpire = some e) (hlt : now < e)
    (hother : ∀ b ∈ db, b ≠ a → b.resetPasswordToken ≠ some tok) :
    findOneByReset db tok now = some a := by
  have hma : matchesReset tok now a = true := by
    simp [matchesReset, htok, hexp, hlt]
  cases hf : findOneByReset db tok now with
  | none =>
    exfalso
    unfold findOneByReset at hf
    rw [List.find?_eq_none] at hf
    exact hf a ha hma
  | some x =>
    have hx : x = a := by
      by_contra hne
      exact hother x (findOneByReset_mem hf) hne (matchesReset_token (findOneByReset_matches hf))
    rw [hx]

theorem mem_save {db : Store} {u a : User} (h : a ∈ save db u) :
    a = u ∨ (a ∈ db ∧ a.id ≠ u.id) := by
  unfold save at h
  rw [List.mem_map] at h
  obtain ⟨b, hb, hba⟩ := h
  by_cases hid : b.id = u.id
  · left; rw [if_pos hid] at hba; exact hba.symm
  · right; rw [if_neg hid] at hba; subst hba; exact ⟨hb, hid⟩

theorem save_getElem? (db : Store) (u : User) (i : Nat) :
    (save db u)[i]? = (db[i]?).map (fun a => if a.id = u.id then u else a) := by
  unfold save
  exact List.getElem?_map _ _ _

theorem exists_mem_save_of_mem {db : Store} {u b : User} (hb : b ∈ db) (hid : b.id = u.id) :
    u ∈ save db u := by
  unfold save
  rw [List.mem_map]
  exact ⟨b, hb, by rw [if_pos hid]⟩

theorem eq_of_mem_filter_length_le_one {p : User → Bool} {db : Store}
    (h : (db.filter p).length ≤ 1) {a b : User} (ha : a ∈ db) (hb : b ∈ db)
    (hpa : p a = true) (hpb : p b = true) : a = b := by
  have ha2 : a ∈ db.filter p := List.mem_filter.mpr ⟨ha, hpa⟩
  have hb2 : b ∈ db.filter p := List.mem_filter.mpr ⟨hb, hpb⟩
  match hl : db.filter p, h with
  | [], _ => rw [hl] at ha2; cases ha2
  | [x], _ =>
    rw [hl] at ha2 hb2
    rw [List.mem_singleton] at ha2 hb2
    rw [ha2, hb2]
  | _ :: _ :: _, h2 => simp at h2

/-! ## Login and logout -/

/-- C1 (anti-enumeration of `loginUser`): for every store and every non-empty
email and password, when no account has the email, or the account found for it
fails `comparePassword`, the handler produces exactly one effect, the error
"Invalid Email or Password" with status 401, the same in both cases; no
session is issued and the store is unchanged. -/
theorem loginUser_anti_enumeration (env : Env) (db : Store) (email password : String)
    (he : email ≠ "") (hp : password ≠ "")
    (h : (∀ u ∈ db, u.email ≠ email) ∨
         (∃ u, findOneByEmail db email = some u ∧ env.comparePassword u password = false)) :
    loginUser env db ⟨some email, some password⟩ =
        ⟨db, [.next "Invalid Email or Password" 401]⟩ ∧
      (loginUser env db ⟨some email, some password⟩).effects.any Effect.isSession = false := by
  have key : loginUser env db ⟨some email, some password⟩ =
      ⟨db, [.next "Invalid Email or Password" 401]⟩ := by
    rcases h with h | ⟨u, hu, hc⟩
    · simp [loginUser, falsy, he, hp, findOneByEmail_none_of_forall db email h]
    · simp [loginUser, falsy, he, hp, hu, hc]
  refine ⟨key, ?_⟩
  rw [key]
  rfl

/-- Witness for C1: a wrong password for a registered email. -/
theorem loginUser_anti_enumeration_witness :
    loginUser sampleEnv [alice] ⟨some "a@x.com", some "wrong"⟩ =
        ⟨[alice], [.next "Invalid Email or Password" 401]⟩ ∧
      (loginUser sampleEnv [alice] ⟨some "a@x.com", some "wrong"⟩).effects.any
        Effect.isSession = false :=
  loginUser_anti_enumeration sampleEnv [alice] "a@x.com" "wrong" (by decide) (by decide)
    (Or.inr ⟨alice, by decide, by decide⟩)

/-- C10 (logout touches only the transport): for every store and clock reading
`now`, `logout` leaves the store as it was, sets the cookie `token` to `null`,
HTTP-only, with an expiry not later than `now`, and then answers with status
200 and `{success: true, message: "Logged Out"}`. -/
theorem logout_only_transport (now : Nat) (db : Store) :
    (logout now db).store = db ∧
      ∃ expires, expires ≤ now ∧
        (logout now db).effects =
          [.cookie "token" none expires true,
           .json 200 { success := true, message := some "Logged Out",
                       user := none, users := none }] :=
  ⟨rfl, now, Nat.le_refl now, rfl⟩

/-! ## Password reset -/

/-- C2 (reset single-use): when at most one account holds `sha256 T` as its
reset token and `resetPassword` with token `T` succeeds at time `t` (a session
is issued), a second `resetPassword` with the same `T` on the resulting store,
at any time `t2` (in particular any `t2 ≥ t`) and with any body, is rejected
with the invalid-or-expired error and leaves the store as it was. -/
theorem resetPassword_single_use (env : Env) (db : Store) (T : String) (t t2 : Nat)
    (body body2 : ResetBody)
    (huniq : (db.filter
        (fun u => decide (u.resetPasswordToken = some (env.sha256 T)))).length ≤ 1)
    (hsucc : (resetPassword env t db T body).effects.any Effect.isSession = true) :
    resetPassword env t2 (resetPassword env t db T body).store T body2 =
      ⟨(resetPassword env t db T body).store,
       [.next "Reset Password Token is invalid or has been expired" 400]⟩ := by
  cases hf : findOneByReset db (env.sha256 T) t with
  | none =>
    simp [resetPassword, hf, Effect.isSession] at hsucc
  | some u =>
    by_cases hpw : body.password = body.confirmPassword
    · have hstore : (resetPassword env t db T body).store =
          save db (consumed env u body.password) := by
        simp [resetPassword, hf, hpw, preSave, consumed]
      rw [hstore]
      have hnone : findOneByReset (save db (consumed env u body.password))
          (env.sha256 T) t2 = none := by
        apply findOneByReset_none_of_forall
        intro a ha
        rcases mem_save ha with h1 | ⟨hmem, hid⟩
        · subst h1
          simp [matchesReset, consumed]
        · cases hm : matchesReset (env.sha256 T) t2 a with
          | false => rfl
          | true =>
            exfalso
            apply hid
            have hau : a = u :=
              eq_of_mem_filter_length_le_one huniq hmem (findOneByReset_mem hf)
                (by simpa using matchesReset_token hm)
                (by simpa using matchesReset_token (findOneByReset_matches hf))
            rw [hau]
            rfl
      simp [resetPassword, hnone]
    · simp [resetPassword, hf, hpw, Effect.isSession] at hsucc

/-- Witness for C2: the pending token `T` of the sample account is consumed at
time 5 and offered again at time 6. -/
theorem resetPassword_single_use_witness :
    resetPassword sampleEnv 6
        (resetPassword sampleEnv 5 [alicePending] "T" ⟨"P2", "P2"⟩).store "T" ⟨"P3", "P3"⟩ =
      ⟨(resetPassword sampleEnv 5 [alicePending] "T" ⟨"P2", "P2"⟩).store,
       [.next "Reset Password Token is invalid or has been expired" 400]⟩ :=
  resetPassword_single_use sampleEnv [alicePending] "T" 5 6 ⟨"P2", "P2"⟩ ⟨"P3", "P3"⟩
    (by decide) (by decide)

/-- C3 (reset expiry): when an account holds `sha256 T` with a stored expiry
`e ≤ now` and no other account holds that hash, `resetPassword` with token `T`
at time `now` is rejected with "Reset Password Token is invalid or has been
expired" and status 400, the store (so the password and reset fields of the
account) is unchanged, and the effects are exactly those produced on any store
in which no account holds the hash. -/
theorem resetPassword_expired (env : Env) (db : Store) (T : String) (now : Nat)
    (body : ResetBody) (a : User) (e : Nat)
    (ha : a ∈ db)
    (htok : a.resetPasswordToken = some (env.sha256 T))
    (hexp : a.resetPasswordExpire = some e) (hle : e ≤ now)
    (hother : ∀ b ∈ db, b ≠ a → b.resetPasswordToken ≠ some (env.sha256 T))
    (db0 : Store) (body0 : ResetBody)
    (hno : ∀ b ∈ db0, b.resetPasswordToken ≠ some (env.sha256 T)) :
    resetPassword env now db T body =
        ⟨db, [.next "Reset Password Token is invalid or has been expired" 400]⟩ ∧
      (resetPassword env now db0 T body0).effects =
        (resetPassword env now db T body).effects := by
  have h1 : findOneByReset db (env.sha256 T) now = none := by
    apply findOneByReset_none_of_forall
    intro b hb
    by_cases hba : b = a
    · subst hba
      simp [matchesReset, hexp, Nat.not_lt.mpr hle]
    · simp [matchesReset, hother b hb hba]
  have h0 : findOneByReset db0 (env.sha256 T) now = none := by
    apply findOneByReset_none_of_forall
    intro b hb
    simp [matchesReset, hno b hb]
  constructor
  · simp [resetPassword, h1]
  · simp [resetPassword, h1, h0]

/-- Witness for C3: the pending token of the sample account, which expires at
1000, is offered at time 1000 exactly. -/
theorem resetPassword_expired_witness :
    resetPassword sampleEnv 1000 [alicePending] "T" ⟨"P2", "P2"⟩ =
        ⟨[alicePending], [.next "Reset Password Token is invalid or has been expired" 400]⟩ ∧
      (resetPassword sampleEnv 1000 [alice] "T" ⟨"P2", "P2"⟩).effects =
        (resetPassword sampleEnv 1000 [alicePending] "T" ⟨"P2", "P2"⟩).effects :=
  resetPassword_expired sampleEnv [alicePending] "T" 1000 ⟨"P2", "P2"⟩ alicePending 1000
    (by decide) (by decide) (by decide) (by decide) (by decide) [alice] ⟨"P2", "P2"⟩ (by decide)

/-- C6 as stated, refuted on a store with two holders of the same token hash:
the second account `bobPending` holds `sha256 T` with an expiry strictly after
`now` and the request has `password = confirmPassword`, yet the session is
issued for the first holder and `bobPending` is still in the store afterwards
with its token and expiry pending and its password as before. -/
theorem resetPassword_consume_second_holder :
    bobPending ∈ [alicePending, bobPending] ∧
      bobPending.resetPasswordToken = some (sampleEnv.sha256 "T") ∧
      bobPending.resetPasswordExpire = some 1000 ∧ 5 < 1000 ∧
      (resetPassword sampleEnv 5 [alicePending, bobPending] "T" ⟨"P2", "P2"⟩).effects =
        [.sendToken (consumed sampleEnv alicePending "P2") 200] ∧
      (consumed sampleEnv alicePending "P2").id ≠ bobPending.id ∧
      (resetPassword sampleEnv 5 [alicePending, bobPending] "T" ⟨"P2", "P2"⟩).effects ≠
        [.sendToken (consumed sampleEnv bobPending "P2") 200] ∧
      (resetPassword sampleEnv 5 [alicePending, bobPending] "T" ⟨"P2", "P2"⟩).store =
        [consumed sampleEnv alicePending "P2", bobPending] := by
  decide

/-- C6 amended (consume transition of `resetPassword`): for an account `a` of
the store whose stored reset token is `sha256 T` with stored expiry `e`
strictly after `now`, no other account holding that hash, the request succeeds
exactly when `body.password = body.confirmPassword`. On success a session for
that account is issued with status 200 and the store is the old one with `a`
replaced, position by position, by `a` carrying the hashed new password and
both reset fields cleared; accounts with another id are still in the store as
they were. On a mismatch the only effect is an error with status 400 and the
store, the pending token and expiry included, is unchanged. -/
theorem resetPassword_consume (env : Env) (db : Store) (T : String) (now e : Nat)
    (body : ResetBody) (a : User)
    (ha : a ∈ db)
    (htok : a.resetPasswordToken = some (env.sha256 T))
    (hexp : a.resetPasswordExpire = some e) (hlt : now < e)
    (hother : ∀ b ∈ db, b ≠ a → b.resetPasswordToken ≠ some (env.sha256 T)) :
    ((resetPassword env now db T body).effects.any Effect.isSuccess = true ↔
        body.password = body.confirmPassword) ∧
      (body.password = body.confirmPassword →
        (resetPassword env now db T body).effects =
            [.sendToken (consumed env a body.password) 200] ∧
          consumed env a body.password =
            { id := a.id, name := a.name, email := a.email,
              password := env.hash body.password, avatar := a.avatar, role := a.role,
              resetPasswordToken := none, resetPasswordExpire := none } ∧
          consumed env a body.password ∈ (resetPassword env now db T body).store ∧
          (∀ b ∈ db, b.id ≠ a.id → b ∈ (resetPassword env now db T body).store) ∧
          ∀ i : Nat, (resetPassword env now db T body).store[i]? =
            (db[i]?).map (fun b => if b.id = a.id then consumed env a body.password else b)) ∧
      (body.password ≠ body.confirmPassword →
        resetPassword env now db T body = ⟨db, [.next "Password does not matched" 400]⟩) := by
  have hu : findOneByReset db (env.sha256 T) now = some a :=
    findOneByReset_of_unique ha htok hexp hlt hother
  refine ⟨?_, ?_, ?_⟩
  · by_cases hpw : body.password = body.confirmPassword
    · simp [resetPassword, hu, hpw, Effect.isSuccess]
    · simp [resetPassword, hu, hpw, Effect.isSuccess]
  · intro hpw
    have hstore : (resetPassword env now db T body).store =
        save db (consumed env a body.password) := by
      simp [resetPassword, hu, hpw, preSave, consumed]
    refine ⟨?_, rfl, ?_, ?_, ?_⟩
    · simp [resetPassword, hu, hpw, preSave, consumed]
    · rw [hstore]
      exact exists_mem_save_of_mem ha rfl
    · intro b hb hid
      rw [hstore]
      unfold save
      rw [List.mem_map]
      refine ⟨b, hb, ?_⟩
      have hid2 : ¬ b.id = (consumed env a body.password).id := hid
      rw [if_neg hid2]
    · intro i
      rw [hstore, save_getElem?]
      rfl
  · intro hpw
    simp [resetPassword, hu, hpw]

/-- Witness for C6 amended: the pending token of the sample account, stored
behind an account with no reset pending, is consumed in time. -/
theorem resetPassword_consume_witness :
    (alicePending ∈ [bob, alicePending] ∧
        alicePending.resetPasswordToken = some (sampleEnv.sha256 "T") ∧
        alicePending.resetPasswordExpire = some 1000 ∧ 5 < 1000 ∧
        ∀ b ∈ [bob, alicePending], b ≠ alicePending →
          b.resetPasswordToken ≠ some (sampleEnv.sha256 "T")) ∧
      (resetPassword sampleEnv 5 [bob, alicePending] "T" ⟨"P2", "P2"⟩).effects =
        [.sendToken (consumed sampleEnv alicePending "P2") 200] ∧
      consumed sampleEnv alicePending "P2" ∈
        (resetPassword sampleEnv 5 [bob, alicePending] "T" ⟨"P2", "P2"⟩).store ∧
      resetPassword sampleEnv 5 [bob, alicePending] "T" ⟨"P2", "P3"⟩ =
        ⟨[bob, alicePending], [.next "Password does not matched" 400]⟩ :=
  ⟨⟨by decide, by decide, by decide, by decide, by decide⟩,
   ((resetPassword_consume sampleEnv [bob, alicePending] "T" 5 1000 ⟨"P2", "P2"⟩ alicePending
      (by decide) (by decide) (by decide) (by decide) (by decide)).2.1 rfl).1,
   ((resetPassword_consume sampleEnv [bob, alicePending] "T" 5 1000 ⟨"P2", "P2"⟩ alicePending
      (by decide) (by decide) (by decide) (by decide) (by decide)).2.1 rfl).2.2.1,
   (resetPassword_consume sampleEnv [bob, alicePending] "T" 5 1000 ⟨"P2", "P3"⟩ alicePending
      (by decide) (by decide) (by decide) (by decide) (by decide)).2.2 (by decide)⟩

/-! ## Forgotten password -/

/-- C4 (rollback of `forgotPassword`): when the email belongs to account `u`
and the mail collaborator rejects the recovery mail with message `msg`, the
account is still in the store afterwards, every stored account with the id of
`u` has both reset fields unset, whatever they held before, and the effects are
the mail attempt followed by one error with status 500 carrying `msg`; no
success response is written. -/
theorem forgotPassword_rollback (env : Env) (now : Nat) (rawToken : String) (db : Store)
    (req : ForgotRequest) (u : User) (msg : String)
    (hu : findOneByEmail db req.email = some u)
    (hfail : env.sendEmail (recoveryMail req rawToken u) = .error msg) :
    (∃ a ∈ (forgotPassword env now rawToken db req).store, a.id = u.id) ∧
      (∀ a ∈ (forgotPassword env now rawToken db req).store, a.id = u.id →
        a.resetPasswordToken = none ∧ a.resetPasswordExpire = none) ∧
      (forgotPassword env now rawToken db req).effects =
        [.sendEmail (recoveryMail req rawToken u), .next msg 500] ∧
      (forgotPassword env now rawToken db req).effects.any Effect.isSuccess = false := by
  have hfail2 := hfail
  simp only [recoveryMail] at hfail2
  have hmem : u ∈ db := List.mem_of_find?_eq_some hu
  have hres : forgotPassword env now rawToken db req =
      ⟨save (save db (getResetPasswordToken env now rawToken u).2) (cleared u),
       [.sendEmail (recoveryMail req rawToken u), .next msg 500]⟩ := by
    simp [forgotPassword, hu, getResetPasswordToken, preSave, hfail2, recoveryMail, cleared]
  rw [hres]
  refine ⟨?_, ?_, rfl, rfl⟩
  · refine ⟨cleared u, exists_mem_save_of_mem
      (b := (getResetPasswordToken env now rawToken u).2) ?_ rfl, rfl⟩
    exact exists_mem_save_of_mem hmem rfl
  · intro a ha hid
    rcases mem_save ha with h1 | ⟨_, hne⟩
    · subst h1
      exact ⟨rfl, rfl⟩
    · exact absurd hid hne

/-- Witness for C4: the mail collaborator rejects the recovery mail of the
sample account, which already had a reset pending. -/
theorem forgotPassword_rollback_witness :
    (∃ a ∈ (forgotPassword failingMailEnv 5 "R" [alicePending]
        ⟨"a@x.com", "http", "shop.test"⟩).store, a.id = alicePending.id) ∧
      (∀ a ∈ (forgotPassword failingMailEnv 5 "R" [alicePending]
          ⟨"a@x.com", "http", "shop.test"⟩).store, a.id = alicePending.id →
        a.resetPasswordToken = none ∧ a.resetPasswordExpire = none) ∧
      (forgotPassword failingMailEnv 5 "R" [alicePending]
          ⟨"a@x.com", "http", "shop.test"⟩).effects =
        [.sendEmail (recoveryMail ⟨"a@x.com", "http", "shop.test"⟩ "R" alicePending),
         .next "SMTP down" 500] ∧
      (forgotPassword failingMailEnv 5 "R" [alicePending]
          ⟨"a@x.com", "http", "shop.test"⟩).effects.any Effect.isSuccess = false :=
  forgotPassword_rollback failingMailEnv 5 "R" [alicePending] ⟨"a@x.com", "http", "shop.test"⟩
    alicePending "SMTP down" (by decide) rfl

/-- C5, the code at an unknown email: on the empty store `forgotPassword`
calls `next` with "User not found" and status 404 and then, instead of
stopping, raises a `TypeError` by reading `getResetPasswordToken` of `null`:
two errors are produced. Nothing is written and no mail is sent. -/
theorem forgotPassword_unknown_email_two_errors :
    forgotPassword sampleEnv 5 "R" [] ⟨"a@x.com", "http", "shop.test"⟩ =
        ⟨[], [.next "User not found" 404, .typeError "getResetPasswordToken"]⟩ ∧
      ((forgotPassword sampleEnv 5 "R" [] ⟨"a@x.com", "http", "shop.test"⟩).effects.filter
        Effect.isError).length = 2 ∧
      (forgotPassword sampleEnv 5 "R" [] ⟨"a@x.com", "http", "shop.test"⟩).effects.any
        Effect.isEmail = false := by
  decide

/-! ## Change of password -/

/-- C7 (atomic rejection in `updatePassword`): for an existing authenticated
account `u`, when `comparePassword` rejects the old password or the new
password differs from its confirmation, the only effect is an error with
status 400, the store is unchanged and no session is issued; when both checks
pass, the account is persisted with the hashed new password and a session is
issued with status 200. A session is issued, and the store can differ from
the old one, only in that second case. -/
theorem updatePassword_atomic (env : Env) (db : Store) (userId : String)
    (body : UpdatePasswordBody) (u : User)
    (hu : findById db userId = some u) :
    ((env.comparePassword u body.oldPassword = false ∨
          body.newPassword ≠ body.confirmPassword) →
        (updatePassword env db userId body).store = db ∧
          (∃ m, (updatePassword env db userId body).effects = [.next m 400]) ∧
          (updatePassword env db userId body).effects.any Effect.isSession = false) ∧
      ((env.comparePassword u body.oldPassword = true ∧
          body.newPassword = body.confirmPassword) →
        updatePassword env db userId body =
          ⟨save db (rekeyed env u body.newPassword),
           [.sendToken (rekeyed env u body.newPassword) 200]⟩) ∧
      ((updatePassword env db userId body).effects.any Effect.isSession = true →
        env.comparePassword u body.oldPassword = true ∧
          body.newPassword = body.confirmPassword) ∧
      ((updatePassword env db userId body).store ≠ db →
        env.comparePassword u body.oldPassword = true ∧
          body.newPassword = body.confirmPassword) := by
  cases hc : env.comparePassword u body.oldPassword with
  | false =>
    simp [updatePassword, hu, hc, Effect.isSession]
  | true =>
    by_cases hpw : body.newPassword = body.confirmPassword
    · simp [updatePassword, hu, hc, hpw, Effect.isSession, preSave, rekeyed]
    · simp [updatePassword, hu, hc, hpw, Effect.isSession]

/-- Witness for C7: the sample account offers a wrong old password. -/
theorem updatePassword_atomic_witness :
    ((sampleEnv.comparePassword alice "bad" = false ∨ "P2" ≠ "P2") →
        (updatePassword sampleEnv [alice] "1" ⟨"bad", "P2", "P2"⟩).store = [alice] ∧
          (∃ m, (updatePassword sampleEnv [alice] "1" ⟨"bad", "P2", "P2"⟩).effects =
            [.next m 400]) ∧
          (updatePassword sampleEnv [alice] "1" ⟨"bad", "P2", "P2"⟩).effects.any
            Effect.isSession = false) ∧
      ((sampleEnv.comparePassword alice "bad" = true ∧ "P2" = "P2") →
        updatePassword sampleEnv [alice] "1" ⟨"bad", "P2", "P2"⟩ =
          ⟨save [alice] (rekeyed sampleEnv alice "P2"),
           [.sendToken (rekeyed sampleEnv alice "P2") 200]⟩) ∧
      ((updatePassword sampleEnv [alice] "1" ⟨"bad", "P2", "P2"⟩).effects.any
          Effect.isSession = true →
        sampleEnv.comparePassword alice "bad" = true ∧ "P2" = "P2") ∧
      ((updatePassword sampleEnv [alice] "1" ⟨"bad", "P2", "P2"⟩).store ≠ [alice] →
        sampleEnv.comparePassword alice "bad" = true ∧ "P2" = "P2") :=
  updatePassword_atomic sampleEnv [alice] "1" ⟨"bad", "P2", "P2"⟩ alice (by decide)

/-! ## Stored passwords -/

/-- The sample hasher never returns its input: the output is longer. -/
theorem sampleEnv_hash_ne (p : String) : sampleEnv.hash p ≠ p := by
  intro h
  have hl := congrArg String.length h
  simp [sampleEnv, String.length_append] at hl
  exact absurd hl (by decide)

/-- C8 (password never in cleartext), for a Password Hasher that never returns
its input: whenever `registerUser`, `updatePassword` or `resetPassword`
succeeds (issues a session) with plaintext password `p`, the record handed to
the store (appended by `create`, written by `save`) carries `hash p` as its
password, which is not `p`. -/
theorem password_never_cleartext (env : Env) (hhash : ∀ p, env.hash p ≠ p) (db : Store) :
    (∀ (newId : String) (reg : RegisterBody),
        (registerUser env newId db reg).effects.any Effect.isSession = true →
        ∃ record, (registerUser env newId db reg).store = db ++ [record] ∧
          record.password = env.hash reg.password ∧ record.password ≠ reg.password) ∧
      (∀ (userId : String) (upd : UpdatePasswordBody),
        (updatePassword env db userId upd).effects.any Effect.isSession = true →
        ∃ record, (updatePassword env db userId upd).store = save db record ∧
          record.password = env.hash upd.newPassword ∧
          record.password ≠ upd.newPassword) ∧
      (∀ (T : String) (now : Nat) (rst : ResetBody),
        (resetPassword env now db T rst).effects.any Effect.isSession = true →
        ∃ record, (resetPassword env now db T rst).store = save db record ∧
          record.password = env.hash rst.password ∧ record.password ≠ rst.password) := by
  refine ⟨?_, ?_, ?_⟩
  · intro newId reg hreg
    cases hup : env.upload reg.avatar with
    | error e => simp [registerUser, hup, Effect.isSession] at hreg
    | ok myCloud =>
      by_cases hdup : ((findOneByEmail db reg.email).isSome || (findById db newId).isSome) = true
      · simp [registerUser, hup, create, hdup, Effect.isSession] at hreg
      · refine ⟨preSave env true
          { id := newId, name := reg.name, email := reg.email, password := reg.password,
            avatar := { public_id := myCloud.public_id, url := myCloud.secure_url },
            role := env.defaultRole, resetPasswordToken := none,
            resetPasswordExpire := none }, ?_, rfl, hhash reg.password⟩
        simp [registerUser, hup, create, hdup]
  · intro userId upd hupd
    cases hf : findById db userId with
    | none => simp [updatePassword, hf, Effect.isSession] at hupd
    | some u =>
      cases hc : env.comparePassword u upd.oldPassword with
      | false => simp [updatePassword, hf, hc, Effect.isSession] at hupd
      | true =>
        by_cases hpw : upd.newPassword = upd.confirmPassword
        · refine ⟨rekeyed env u upd.newPassword, ?_, rfl, hhash upd.newPassword⟩
          simp [updatePassword, hf, hc, hpw, preSave, rekeyed]
        · simp [updatePassword, hf, hc, hpw, Effect.isSession] at hupd
  · intro T now rst hrst
    cases hf : findOneByReset db (env.sha256 T) now with
    | none => simp [resetPassword, hf, Effect.isSession] at hrst
    | some u =>
      by_cases hpw : rst.password = rst.confirmPassword
      · refine ⟨consumed env u rst.password, ?_, rfl, hhash rst.password⟩
        simp [resetPassword, hf, hpw, preSave, consumed]
      · simp [resetPassword, hf, hpw, Effect.isSession] at hrst

/-- Witness for C8: a registration, a change of password and a reset that all
succeed on sample data, under the sample hasher. -/
theorem password_never_cleartext_witness :
    (∀ p, sampleEnv.hash p ≠ p) ∧
      (∃ record, (registerUser sampleEnv "2" [alicePending]
          ⟨"Bob", "b@x.com", "P9", "img"⟩).store = [alicePending] ++ [record] ∧
        record.password = sampleEnv.hash "P9" ∧ record.password ≠ "P9") ∧
      (∃ record, (updatePassword sampleEnv [alicePending] "1" ⟨"P1", "P2", "P2"⟩).store =
          save [alicePending] record ∧
        record.password = sampleEnv.hash "P2" ∧ record.password ≠ "P2") ∧
      (∃ record, (resetPassword sampleEnv 5 [alicePending] "T" ⟨"P3", "P3"⟩).store =
          save [alicePending] record ∧
        record.password = sampleEnv.hash "P3" ∧ record.password ≠ "P3") :=
  ⟨sampleEnv_hash_ne,
   (password_never_cleartext sampleEnv sampleEnv_hash_ne [alicePending]).1 "2"
     ⟨"Bob", "b@x.com", "P9", "img"⟩ (by decide),
   (password_never_cleartext sampleEnv sampleEnv_hash_ne [alicePending]).2.1 "1"
     ⟨"P1", "P2", "P2"⟩ (by decide),
   (password_never_cleartext sampleEnv sampleEnv_hash_ne [alicePending]).2.2 "T" 5
     ⟨"P3", "P3"⟩ (by decide)⟩

/-! ## Administration -/

/-- C9, the code at an unknown identifier: on a store where no account has
id "42", `getSingleUser` and `deleteUser` report the failure with status 401
(not 404), and `updateUserRole` writes the success response with status 200;
the store is unchanged in all three. -/
theorem admin_unknown_id_status :
    getSingleUser [alice] "42" =
        ⟨[alice], [.next "User does not exist with Id: 42" 401]⟩ ∧
      deleteUser [alice] "42" =
        ⟨[alice], [.next "User does not exist with Id: 42" 401]⟩ ∧
      updateUserRole [alice] "42" ⟨"Eve", "e@x.com", "admin"⟩ =
        ⟨[alice], [.json 200 { success := true, message := none, user := none,
                               users := none }]⟩ := by
  decide

end UserController
